import Mathlib

/-!
Verification of the tenderduty alert engine against its specification.

The definitions below are a shallow embedding of the Go source:
`td2/alert.go` (current version, second document in the file) and the
configuration/persistence code (`SeverityThresholdToSeverities`,
`validateConfig`, `loadConfig`, `clearStale`).

Modelling conventions:
* `time.Time` is modelled as an `Int` of nanoseconds since the epoch;
  `t.IsZero()` becomes `t = 0`, `a.Before(b)` becomes `a < b`,
  `a.After(b)` becomes `a > b`, and `time.Now()` is passed in explicitly
  as a parameter `now`.
* Go maps are modelled as association lists (`List (String × α)`) with
  Go-map semantics: assignment replaces the binding when the key is
  present and appends it otherwise, `delete` removes the binding, and
  indexing a missing key yields the zero value.
* The outgoing alert channel is modelled by returning the enqueued
  message (`Option` = enqueued or not) alongside the new state.
-/

namespace Tenderduty

/-! ## Association-list model of Go maps -/

/-- Go map lookup returning `none` when the key is absent. -/
def mapFind {α : Type} (m : List (String × α)) (k : String) : Option α :=
  match m with
  | [] => none
  | p :: rest => if p.1 = k then some p.2 else mapFind rest k

/-- Go map assignment `m[k] = v`: replaces the binding when present,
appends it otherwise. -/
def mapSet {α : Type} (m : List (String × α)) (k : String) (v : α) :
    List (String × α) :=
  match m with
  | [] => [(k, v)]
  | p :: rest => if p.1 = k then (k, v) :: rest else p :: mapSet rest k v

/-- Go `delete(m, k)`. -/
def mapDel {α : Type} (m : List (String × α)) (k : String) :
    List (String × α) :=
  match m with
  | [] => []
  | p :: rest => if p.1 = k then mapDel rest k else p :: mapDel rest k

/-- The keys of a modelled Go map. -/
def mapKeys {α : Type} (m : List (String × α)) : List String :=
  m.map Prod.fst

/-- Number of bindings a modelled map holds for a given key. -/
def keyCount {α : Type} (m : List (String × α)) (k : String) : Nat :=
  m.countP (fun p => p.1 = k)

/-! ## Data model from `td2/alert.go` and the config file -/

/-- `alertMsgCache` from `td2/alert.go`: one cached sent alert. -/
structure AlertMsgCache where
  message : String
  sentTime : Int
deriving DecidableEq, Repr

/-- The Go zero value of `alertMsgCache` (what indexing a missing map key
yields). -/
def AlertMsgCache.zero : AlertMsgCache := ⟨"", 0⟩

/-- A per-sink sent-alert map, keyed by `uniqueId`. -/
abbrev SentMap := List (String × AlertMsgCache)

/-- Nanoseconds in one hour (`time.Hour`). -/
def nanosPerHour : Int := 3600 * 1000000000

/-- Nanoseconds in one minute (`time.Minute`). -/
def nanosPerMinute : Int := 60 * 1000000000

/-- `strings.ToLower` (the configuration strings it is applied to are
ASCII, so ASCII lowering is faithful). -/
def strToLower (s : String) : String := ⟨s.data.map Char.toLower⟩

/-- `strings.HasPrefix s p` over the characters of the two strings. -/
def strHasPre (s p : String) : Bool := s.data.take p.data.length == p.data

/-- `SeverityThresholdToSeverities` from `config.go`: the set of
severities a sink with the given threshold accepts. -/
def SeverityThresholdToSeverities (threhold : String) : List String :=
  if strToLower threhold = "critical" then ["critical"]
  else if strToLower threhold = "warning" then ["critical", "warning"]
  else if strToLower threhold = "info" then ["critical", "warning", "info"]
  else ["critical", "warning", "info"]

/-- `alertMsg` from `td2/alert.go`, restricted to the fields
`shouldNotify` reads. The four threshold fields stand for
`msg.alertConfig.<Sink>.SeverityThreshold`. -/
structure AlertMsg where
  pd : Bool
  disc : Bool
  tg : Bool
  slk : Bool
  severity : String
  resolved : Bool
  chain : String
  message : String
  uniqueId : String
  pagerdutyThreshold : String
  telegramThreshold : String
  discordThreshold : String
  slackThreshold : String
deriving DecidableEq, Repr

/-- `notifyDest` from `td2/alert.go`. -/
inductive NotifyDest
  | pd
  | tg
  | di
  | slk
deriving DecidableEq, Repr

/-- `alarmCache` from `td2/alert.go` (the mutex is not modelled; every
operation below is atomic). -/
structure AlarmCache where
  sentPdAlarms : SentMap
  sentTgAlarms : SentMap
  sentDiAlarms : SentMap
  sentSlkAlarms : SentMap
  allAlarms : List (String × SentMap)
  flappingAlarms : List (String × SentMap)
deriving DecidableEq, Repr

/-- The per-sink sent map `whichMap` chosen by the `switch dest` in
`shouldNotify`. -/
def sentMap (a : AlarmCache) : NotifyDest → SentMap
  | .pd => a.sentPdAlarms
  | .tg => a.sentTgAlarms
  | .di => a.sentDiAlarms
  | .slk => a.sentSlkAlarms

/-- Writing back the per-sink sent map chosen by `dest`. -/
def setSentMap (a : AlarmCache) (d : NotifyDest) (m : SentMap) : AlarmCache :=
  match d with
  | .pd => { a with sentPdAlarms := m }
  | .tg => { a with sentTgAlarms := m }
  | .di => { a with sentDiAlarms := m }
  | .slk => { a with sentSlkAlarms := m }

/-- The sink severity threshold `shouldNotify` reads for each
destination. -/
def destThreshold (msg : AlertMsg) : NotifyDest → String
  | .pd => msg.pagerdutyThreshold
  | .tg => msg.telegramThreshold
  | .di => msg.discordThreshold
  | .slk => msg.slackThreshold

/-- `shouldNotify` from `td2/alert.go`. `govInterval` is
`td.GovernanceAlertsReminderInterval` (hours); `now` is `time.Now()`.
Returns the boolean result together with the updated alarm cache. -/
def shouldNotify (govInterval now : Int) (msg : AlertMsg) (dest : NotifyDest)
    (a : AlarmCache) : Bool × AlarmCache :=
  if ((SeverityThresholdToSeverities (destThreshold msg dest)).contains
      msg.severity) = false then
    (false, a)
  else
    let whichMap := sentMap a dest
    let entry := (mapFind whichMap msg.uniqueId).getD AlertMsgCache.zero
    if entry.sentTime ≠ 0 ∧ msg.resolved = false then
      -- possible governance-proposal reminder
      if strHasPre msg.uniqueId "UnvotedGovernanceProposal" = true ∧
          entry.sentTime < now - govInterval * nanosPerHour then
        (true, setSentMap a dest
          (mapSet whichMap msg.uniqueId ⟨msg.message, now⟩))
      else
        (false, a)
    else if entry.sentTime ≠ 0 ∧ msg.resolved = true then
      -- alarm is cleared
      (true, setSentMap a dest (mapDel whichMap msg.uniqueId))
    else if msg.resolved = true then
      -- duplicate or suppressed resolution: logged and discarded
      (false, a)
    else
      -- ensure the flapping map for the chain exists (Go: make if nil)
      let flapChain := (mapFind a.flappingAlarms msg.chain).getD []
      let a1 := if (mapFind a.flappingAlarms msg.chain).isNone = true then
          { a with flappingAlarms := mapSet a.flappingAlarms msg.chain [] }
        else a
      let flapEntry := (mapFind flapChain msg.uniqueId).getD AlertMsgCache.zero
      if dest = NotifyDest.pd ∧ msg.pd = true ∧
          flapEntry.sentTime > now - 5 * nanosPerMinute then
        -- flapping detected, suppress the pagerduty notification
        (false, a1)
      else
        let flapChain2 := mapSet flapChain msg.uniqueId ⟨msg.message, now⟩
        let a2 := if dest = NotifyDest.pd ∧ msg.pd = true then
            { a1 with flappingAlarms := mapSet a1.flappingAlarms msg.chain flapChain2 }
          else a1
        (true, setSentMap a2 dest
          (mapSet (sentMap a2 dest) msg.uniqueId ⟨msg.message, now⟩))

/-- The message `Config.alert` pushes onto `c.alertChan`, restricted to
the identifying fields. -/
structure EnqueuedAlert where
  chainName : String
  message : String
  severity : String
  resolved : Bool
  uniqueId : String
deriving DecidableEq, Repr

/-- `Config.alert` from `td2/alert.go`: when `id` is nil it returns at
once; otherwise it enqueues an alert message and updates the canonical
`AllAlarms` cache (insert on fire, delete on resolve-of-open). -/
def configAlert (now : Int) (a : AlarmCache) (chainName message severity : String)
    (resolved : Bool) (id : Option String) : Option EnqueuedAlert × AlarmCache :=
  match id with
  | none => (none, a)
  | some idv =>
    let enq := some (⟨chainName, message, severity, resolved, idv⟩ : EnqueuedAlert)
    let chainMap := (mapFind a.allAlarms chainName).getD []
    let all1 := if (mapFind a.allAlarms chainName).isNone = true then
        mapSet a.allAlarms chainName []
      else a.allAlarms
    if resolved = true ∧
        ((mapFind chainMap idv).getD AlertMsgCache.zero).sentTime ≠ 0 then
      (enq, { a with allAlarms := mapSet all1 chainName (mapDel chainMap idv) })
    else if resolved = true then
      (enq, { a with allAlarms := all1 })
    else
      let chainMap2 := mapSet chainMap idv ⟨message, now⟩
      (enq, { a with allAlarms := mapSet all1 chainName chainMap2 })

/-- The arguments of one `Config.alert` call (for reasoning about call
sequences). -/
structure AlertCall where
  chainName : String
  message : String
  severity : String
  resolved : Bool
  id : Option String
deriving DecidableEq, Repr

/-- Run a sequence of `Config.alert` calls, keeping only the cache. -/
def applyAlerts (now : Int) (calls : List AlertCall) (a : AlarmCache) : AlarmCache :=
  match calls with
  | [] => a
  | c :: rest =>
    applyAlerts now rest
      (configAlert now a c.chainName c.message c.severity c.resolved c.id).2

/-- Looking up an open alarm in the canonical `AllAlarms` cache. -/
def allFind (all : List (String × SentMap)) (chain alertID : String) :
    Option AlertMsgCache :=
  mapFind ((mapFind all chain).getD []) alertID

/-! ## Persistence: `clearStale` and the restore step of `loadConfig` -/

/-- `staleHours` from `config.go`. -/
def staleHours : Int := 24

/-- `clearStale` from `config.go`: drop every cached alarm whose
`SentTime` lies `hours` hours or more in the past, keep the rest
unchanged. (`time.Since(t).Hours() >= hours` becomes
`now - t ≥ hours * nanosPerHour`.) -/
def clearStale (m : SentMap) (now hours : Int) : SentMap :=
  match m with
  | [] => []
  | p :: rest =>
    if now - p.2.sentTime ≥ hours * nanosPerHour then clearStale rest now hours
    else p :: clearStale rest now hours

/-- The `alarms` field of `savedState` from `config.go` as decoded from
JSON: each map may be absent (`nil`). -/
structure SavedAlarms where
  sentPdAlarms : Option SentMap
  sentTgAlarms : Option SentMap
  sentDiAlarms : Option SentMap
  sentSlkAlarms : Option SentMap
  allAlarms : Option (List (String × SentMap))
deriving Repr

/-- The alarm-restoring step of `loadConfig` (`config.go`): each saved
per-sink map replaces the fresh one and is scrubbed with `clearStale`;
each per-chain map of `AllAlarms` is likewise scrubbed in place. -/
def restoreAlarmState (now : Int) (saved : Option SavedAlarms)
    (a : AlarmCache) : AlarmCache :=
  match saved with
  | none => a
  | some s =>
    let a := match s.sentTgAlarms with
      | some m => { a with sentTgAlarms := clearStale m now staleHours }
      | none => a
    let a := match s.sentPdAlarms with
      | some m => { a with sentPdAlarms := clearStale m now staleHours }
      | none => a
    let a := match s.sentDiAlarms with
      | some m => { a with sentDiAlarms := clearStale m now staleHours }
      | none => a
    let a := match s.sentSlkAlarms with
      | some m => { a with sentSlkAlarms := clearStale m now staleHours }
      | none => a
    match s.allAlarms with
    | some all =>
      { a with allAlarms := all.map (fun p => (p.1, clearStale p.2 now staleHours)) }
    | none => a

/-! ## The block tape: initialization, restore, update -/

/-- `showBLocks` from `config.go`. -/
def showBLocks : Nat := 512

/-- The per-chain block-tape initialization in `validateConfig`
(`config.go`): a nil tape becomes 512 slots of the no-data value `-1`;
a non-nil tape is left untouched. -/
def initChainBlocks (blocksResults : Option (List Int)) : List Int :=
  match blocksResults with
  | none => List.replicate showBLocks (-1)
  | some l => l

/-- The per-chain block restore in `loadConfig` (`config.go`): when the
saved state holds a tape for the chain it replaces the current one
verbatim, with no length check. -/
def restoreChainBlocks (current : List Int) (saved : Option (List Int)) :
    List Int :=
  match saved with
  | some v => v
  | none => current

/-- Modelled from the spec: the runtime block-tape update is not among
the provided source files (only its initialization and restore are).
Per the spec, the tape is a fixed-length ordered sequence of 512
outcomes indexed by sliding block height, slot `i (mod 512)`
corresponding to height `h` iff `h % 512 == i`; committing the outcome
of height `h` therefore overwrites slot `h % 512` in place. -/
def tapeUpdate (tape : List Int) (h : Nat) (outcome : Int) : List Int :=
  tape.set (h % showBLocks) outcome

/-! ## Config validation: governance reminder interval default -/

/-- The governance-reminder default in `validateConfig` (`config.go`):
an unset or non-positive `governance_alerts_reminder_interval` becomes
6 hours. -/
def defaultGovReminderInterval (i : Int) : Int :=
  if i ≤ 0 then 6 else i

/-! ## `evaluateValidatorInactiveAlert` from `td2/alert.go` -/

/-- `ValInfo`, restricted to the fields the inactive-alert rule reads. -/
structure ValInfo where
  moniker : String
  bonded : Bool
  tombstoned : Bool
deriving DecidableEq, Repr

/-- The alert emitted by an evaluator via `td.alert`, restricted to the
arguments that call passes. -/
structure EmittedAlert where
  chainName : String
  message : String
  severity : String
  resolved : Bool
  alertId : String
deriving DecidableEq, Repr

/-- The `fmt.Sprintf` format in `evaluateValidatorInactiveAlert`. -/
def mkInactiveMessage (moniker valAddress inactive chainId : String) : String :=
  moniker ++ " is no longer active: validator " ++ valAddress ++ " is " ++
    inactive ++ " for chainid " ++ chainId

/-- `evaluateValidatorInactiveAlert` from `td2/alert.go`: returns the
alert passed to `td.alert` (if any) and the `(alert, resolved)` result
pair. Fires only when the previous `ValInfo` exists, its bondedness
differs from the current one, and the monikers agree. -/
def evaluateValidatorInactiveAlert (chainName chainId valAddress : String)
    (lastValInfo : Option ValInfo) (valInfo : ValInfo) :
    Option EmittedAlert × Bool × Bool :=
  match lastValInfo with
  | none => (none, false, false)
  | some last =>
    if last.bonded ≠ valInfo.bonded ∧ last.moniker = valInfo.moniker then
      let alertID := "ValidatorInactive_" ++ valAddress
      if valInfo.bonded = false ∧ last.bonded = true then
        let inactive := if valInfo.tombstoned = true then "☠️ tombstoned 🪦"
          else "jailed"
        (some ⟨chainName,
          mkInactiveMessage valInfo.moniker valAddress inactive chainId,
          "critical", false, alertID⟩, true, false)
      else if valInfo.bonded = true ∧ last.bonded = false then
        (some ⟨chainName,
          mkInactiveMessage valInfo.moniker valAddress "jailed" chainId,
          "critical", true, alertID⟩, false, true)
      else
        (none, false, false)
    else
      (none, false, false)

/-- The cache entry `shouldNotify` reads for a message
(`whichMap[msg.uniqueId]`, with the Go zero value when absent). -/
def sentEntry (a : AlarmCache) (dest : NotifyDest) (uid : String) :
    AlertMsgCache :=
  (mapFind (sentMap a dest) uid).getD AlertMsgCache.zero

/-- The flap-detection record `shouldNotify` reads
(`alarms.flappingAlarms[msg.chain][msg.uniqueId]`). -/
def flapRecord (a : AlarmCache) (chain uid : String) : AlertMsgCache :=
  (mapFind ((mapFind a.flappingAlarms chain).getD []) uid).getD
    AlertMsgCache.zero

/-! ## Concrete fixtures used to exercise the theorems -/

/-- The empty alarm cache (all maps empty). -/
def emptyCache : AlarmCache := ⟨[], [], [], [], [], []⟩

/-- A resolution whose severity (`info`) is below the sink threshold
(`critical`). -/
def c1Msg : AlertMsg :=
  { pd := false, disc := false, tg := false, slk := false,
    severity := "info", resolved := true, chain := "c", message := "m",
    uniqueId := "NodeDown_val_node", pagerdutyThreshold := "critical",
    telegramThreshold := "", discordThreshold := "", slackThreshold := "" }

/-- A resolution passing the severity threshold. -/
def c1wMsg : AlertMsg :=
  { c1Msg with severity := "critical" }

/-- A cache in which the alert `NodeDown_val_node` was delivered to
PagerDuty at time 5. -/
def c1Cache : AlarmCache :=
  { emptyCache with sentPdAlarms := [("NodeDown_val_node", ⟨"m", 5⟩)] }

/-- A sequence of two identical fire calls. -/
def c2Calls : List AlertCall :=
  [⟨"ch", "m", "critical", false, some "ConsecutiveBlocksMissed_v"⟩,
   ⟨"ch", "m", "critical", false, some "ConsecutiveBlocksMissed_v"⟩]

/-- A warning-severity alert aimed at a critical-threshold sink. -/
def c3Msg : AlertMsg :=
  { pd := false, disc := false, tg := false, slk := false,
    severity := "warning", resolved := false, chain := "c", message := "m",
    uniqueId := "PercentageBlocksMissed_val",
    pagerdutyThreshold := "critical", telegramThreshold := "",
    discordThreshold := "", slackThreshold := "" }

/-- A saved-state value whose maps are all absent. -/
def c5Saved : SavedAlarms := ⟨none, none, none, none, none⟩

/-- An open governance-proposal alert message. -/
def c6Msg : AlertMsg :=
  { pd := false, disc := false, tg := false, slk := false,
    severity := "critical", resolved := false, chain := "c", message := "m",
    uniqueId := "UnvotedGovernanceProposal_val_42",
    pagerdutyThreshold := "critical", telegramThreshold := "",
    discordThreshold := "", slackThreshold := "" }

/-- A cache in which the governance alert was sent to PagerDuty at
time 10. -/
def c6Cache : AlarmCache :=
  { emptyCache with
    sentPdAlarms := [("UnvotedGovernanceProposal_val_42", ⟨"m", 10⟩)] }

/-- A fresh PagerDuty-enabled alert message. -/
def c7Msg : AlertMsg :=
  { pd := true, disc := false, tg := false, slk := false,
    severity := "critical", resolved := false, chain := "c", message := "m",
    uniqueId := "ConsecutiveBlocksMissed_val",
    pagerdutyThreshold := "critical", telegramThreshold := "",
    discordThreshold := "", slackThreshold := "" }

/-- A cache holding a flap record for `c7Msg` made at time 100. -/
def c7Cache : AlarmCache :=
  { emptyCache with
    flappingAlarms := [("c", [("ConsecutiveBlocksMissed_val", ⟨"m", 100⟩)])] }

/-! ## Helper lemmas about the Go-map model -/

theorem mapFind_mapSet_self {α : Type} (m : List (String × α)) (k : String)
    (v : α) : mapFind (mapSet m k v) k = some v := by
  induction m with
  | nil => simp [mapSet, mapFind]
  | cons p rest ih =>
    by_cases h : p.1 = k
    · simp [mapSet, h, mapFind]
    · simp [mapSet, h, mapFind, ih]

theorem mapFind_mapSet_ne {α : Type} (m : List (String × α)) {k k' : String}
    (v : α) (h : k' ≠ k) : mapFind (mapSet m k v) k' = mapFind m k' := by
  have hkk : ¬(k = k') := Ne.symm h
  induction m with
  | nil => simp [mapSet, mapFind, hkk]
  | cons p rest ih =>
    by_cases hp : p.1 = k
    · have hp' : ¬(p.1 = k') := by rw [hp]; exact hkk
      simp [mapSet, hp, mapFind, hkk, hp']
    · simp only [mapSet, hp, if_false, mapFind]
      by_cases hp' : p.1 = k'
      · simp [hp']
      · simp [hp', ih]

theorem mapFind_mapDel_self {α : Type} (m : List (String × α)) (k : String) :
    mapFind (mapDel m k) k = none := by
  induction m with
  | nil => simp [mapDel, mapFind]
  | cons p rest ih =>
    by_cases h : p.1 = k
    · simp [mapDel, h, ih]
    · simp [mapDel, h, mapFind, ih]

theorem mapFind_mapDel_ne {α : Type} (m : List (String × α)) {k k' : String}
    (h : k' ≠ k) : mapFind (mapDel m k) k' = mapFind m k' := by
  have hkk : ¬(k = k') := Ne.symm h
  induction m with
  | nil => simp [mapDel]
  | cons p rest ih =>
    by_cases hp : p.1 = k
    · have hp' : ¬(p.1 = k') := by rw [hp]; exact hkk
      simp [mapDel, hp, mapFind, hp', hkk, ih]
    · simp only [mapDel, hp, if_false, mapFind]
      by_cases hp' : p.1 = k'
      · simp [hp']
      · simp [hp', ih]

theorem mapFind_eq_none_iff {α : Type} (m : List (String × α)) (k : String) :
    mapFind m k = none ↔ k ∉ mapKeys m := by
  induction m with
  | nil => simp [mapFind, mapKeys]
  | cons p rest ih =>
    by_cases h : p.1 = k
    · simp [mapFind, h, mapKeys]
    · have h' : ¬(k = p.1) := fun hx => h hx.symm
      simp only [mapFind, h, if_false, mapKeys, List.map_cons, List.mem_cons]
      rw [show List.map Prod.fst rest = mapKeys rest from rfl, ih]
      simp [not_or, h']

theorem mem_mapKeys_mapSet {α : Type} (m : List (String × α)) (k x : String)
    (v : α) : x ∈ mapKeys (mapSet m k v) ↔ x = k ∨ x ∈ mapKeys m := by
  induction m with
  | nil => simp [mapSet, mapKeys]
  | cons p rest ih =>
    by_cases h : p.1 = k
    · simp only [mapSet, h, if_true, mapKeys, List.map_cons, List.mem_cons]
      tauto
    · simp only [mapSet, h, if_false, mapKeys, List.map_cons, List.mem_cons]
      rw [show (mapSet rest k v).map Prod.fst = mapKeys (mapSet rest k v) from rfl,
        show rest.map Prod.fst = mapKeys rest from rfl]
      rw [ih]
      tauto

theorem nodup_mapKeys_mapSet {α : Type} (m : List (String × α)) (k : String)
    (v : α) (hnd : (mapKeys m).Nodup) : (mapKeys (mapSet m k v)).Nodup := by
  induction m with
  | nil => simp [mapSet, mapKeys]
  | cons p rest ih =>
    simp only [mapKeys, List.map_cons, List.nodup_cons] at hnd
    by_cases h : p.1 = k
    · simp only [mapSet, h, if_true, mapKeys, List.map_cons, List.nodup_cons]
      refine ⟨?_, hnd.2⟩
      rw [← h]
      exact hnd.1
    · simp only [mapSet, h, if_false, mapKeys, List.map_cons, List.nodup_cons]
      refine ⟨?_, ih hnd.2⟩
      intro hmem
      rcases (mem_mapKeys_mapSet rest k p.1 v).mp hmem with heq | hmem'
      · exact h heq
      · exact hnd.1 hmem'

theorem mapDel_sublist {α : Type} (m : List (String × α)) (k : String) :
    List.Sublist (mapDel m k) m := by
  induction m with
  | nil => simp [mapDel]
  | cons p rest ih =>
    by_cases h : p.1 = k
    · simp only [mapDel, h, if_true]
      exact ih.cons p
    · simp only [mapDel, h, if_false]
      exact ih.cons₂ p

theorem nodup_mapKeys_mapDel {α : Type} (m : List (String × α)) (k : String)
    (hnd : (mapKeys m).Nodup) : (mapKeys (mapDel m k)).Nodup :=
  List.Nodup.sublist (List.Sublist.map Prod.fst (mapDel_sublist m k)) hnd

theorem keyCount_eq_zero_of_not_mem {α : Type} (m : List (String × α))
    (k : String) (h : k ∉ mapKeys m) : keyCount m k = 0 := by
  induction m with
  | nil => simp [keyCount]
  | cons p rest ih =>
    simp only [mapKeys, List.map_cons, List.mem_cons, not_or] at h
    simp only [keyCount, List.countP_cons] at *
    have h1 : p.1 ≠ k := fun hx => h.1 hx.symm
    simp [h1, ih h.2]

theorem keyCount_le_one_of_nodup {α : Type} (m : List (String × α))
    (k : String) (hnd : (mapKeys m).Nodup) : keyCount m k ≤ 1 := by
  induction m with
  | nil => simp [keyCount]
  | cons p rest ih =>
    simp only [mapKeys, List.map_cons, List.nodup_cons] at hnd
    simp only [keyCount, List.countP_cons]
    by_cases h : p.1 = k
    · have : k ∉ mapKeys rest := by rw [← h]; exact hnd.1
      have hz := keyCount_eq_zero_of_not_mem rest k this
      simp only [keyCount] at hz
      simp [h, hz]
    · have hle := ih hnd.2
      simp only [keyCount] at hle
      simpa [h] using hle

theorem clearStale_sublist (m : SentMap) (now hours : Int) :
    List.Sublist (clearStale m now hours) m := by
  induction m with
  | nil => simp [clearStale]
  | cons p rest ih =>
    by_cases h : now - p.2.sentTime ≥ hours * nanosPerHour
    · simp only [clearStale, h, if_true]
      exact ih.cons p
    · simp only [clearStale, h, if_false]
      exact ih.cons₂ p

theorem mapFind_clearStale_none (m : SentMap) (now hours : Int) (k : String)
    (h : mapFind m k = none) : mapFind (clearStale m now hours) k = none := by
  rw [mapFind_eq_none_iff] at *
  intro hmem
  exact h (List.Sublist.map Prod.fst (clearStale_sublist m now hours)
    |>.subset hmem)

/-- Characterization of `clearStale` on a map with distinct keys: a
binding survives iff it is strictly fresher than the cutoff, and it
survives unchanged. -/
theorem mapFind_clearStale (m : SentMap) (now hours : Int) (k : String)
    (hnd : (mapKeys m).Nodup) :
    mapFind (clearStale m now hours) k = (mapFind m k).bind
      (fun c => if now - c.sentTime ≥ hours * nanosPerHour then none
        else some c) := by
  induction m with
  | nil => simp [clearStale, mapFind]
  | cons p rest ih =>
    simp only [mapKeys, List.map_cons, List.nodup_cons] at hnd
    by_cases hk : p.1 = k
    · by_cases hs : now - p.2.sentTime ≥ hours * nanosPerHour
      · simp only [clearStale, hs, if_true, mapFind, hk, Option.bind]
        have : mapFind rest k = none := by
          rw [mapFind_eq_none_iff]
          rw [← hk]
          exact hnd.1
        rw [mapFind_clearStale_none rest now hours k this]
      · simp [clearStale, hs, mapFind, hk]
    · by_cases hs : now - p.2.sentTime ≥ hours * nanosPerHour
      · simp only [clearStale, hs, if_true, mapFind, hk, if_false]
        exact ih hnd.2
      · simp only [clearStale, hs, if_false, mapFind, hk, if_true]
        exact ih hnd.2

/-! ## Helper lemmas about the alarm-cache accessors -/

theorem sentMap_setSentMap_self (a : AlarmCache) (d : NotifyDest)
    (m : SentMap) : sentMap (setSentMap a d m) d = m := by
  cases d <;> rfl

theorem sentMap_set_flapping (a : AlarmCache) (d : NotifyDest)
    (f : List (String × SentMap)) :
    sentMap { a with flappingAlarms := f } d = sentMap a d := by
  cases d <;> rfl

theorem flapping_setSentMap (a : AlarmCache) (d : NotifyDest) (m : SentMap) :
    (setSentMap a d m).flappingAlarms = a.flappingAlarms := by
  cases d <;> rfl

/-! ## Branch characterizations of `shouldNotify` -/

theorem shouldNotify_sev_reject (govInterval now : Int) (msg : AlertMsg)
    (dest : NotifyDest) (a : AlarmCache)
    (h : ((SeverityThresholdToSeverities (destThreshold msg dest)).contains
      msg.severity) = false) :
    shouldNotify govInterval now msg dest a = (false, a) := by
  simp only [shouldNotify]
  rw [if_pos h]

theorem shouldNotify_resolved_open (govInterval now : Int) (msg : AlertMsg)
    (dest : NotifyDest) (a : AlarmCache)
    (hsev : ((SeverityThresholdToSeverities (destThreshold msg dest)).contains
      msg.severity) = true)
    (hopen : (sentEntry a dest msg.uniqueId).sentTime ≠ 0)
    (hres : msg.resolved = true) :
    shouldNotify govInterval now msg dest a =
      (true, setSentMap a dest (mapDel (sentMap a dest) msg.uniqueId)) := by
  simp only [sentEntry] at hopen
  have hmem : msg.severity ∈ SeverityThresholdToSeverities
      (destThreshold msg dest) := by simpa using hsev
  have h0 : ¬(((SeverityThresholdToSeverities (destThreshold msg dest)).contains
      msg.severity) = false) := by simp [hmem]
  have h1 : ¬(((mapFind (sentMap a dest) msg.uniqueId).getD
      AlertMsgCache.zero).sentTime ≠ 0 ∧ msg.resolved = false) := by
    simp [hres]
  have h2 : ((mapFind (sentMap a dest) msg.uniqueId).getD
      AlertMsgCache.zero).sentTime ≠ 0 ∧ msg.resolved = true := ⟨hopen, hres⟩
  simp only [shouldNotify]
  rw [if_neg h0, if_neg h1, if_pos h2]

theorem shouldNotify_resolved_notOpen (govInterval now : Int) (msg : AlertMsg)
    (dest : NotifyDest) (a : AlarmCache)
    (hsev : ((SeverityThresholdToSeverities (destThreshold msg dest)).contains
      msg.severity) = true)
    (hclosed : (sentEntry a dest msg.uniqueId).sentTime = 0)
    (hres : msg.resolved = true) :
    shouldNotify govInterval now msg dest a = (false, a) := by
  simp only [sentEntry] at hclosed
  have hmem : msg.severity ∈ SeverityThresholdToSeverities
      (destThreshold msg dest) := by simpa using hsev
  have h0 : ¬(((SeverityThresholdToSeverities (destThreshold msg dest)).contains
      msg.severity) = false) := by simp [hmem]
  have h1 : ¬(((mapFind (sentMap a dest) msg.uniqueId).getD
      AlertMsgCache.zero).sentTime ≠ 0 ∧ msg.resolved = false) := by
    simp [hclosed]
  have h2 : ¬(((mapFind (sentMap a dest) msg.uniqueId).getD
      AlertMsgCache.zero).sentTime ≠ 0 ∧ msg.resolved = true) := by
    simp [hclosed]
  simp only [shouldNotify]
  rw [if_neg h0, if_neg h1, if_neg h2, if_pos hres]

theorem shouldNotify_firing_open_noResend (govInterval now : Int)
    (msg : AlertMsg) (dest : NotifyDest) (a : AlarmCache)
    (hsev : ((SeverityThresholdToSeverities (destThreshold msg dest)).contains
      msg.severity) = true)
    (hopen : (sentEntry a dest msg.uniqueId).sentTime ≠ 0)
    (hres : msg.resolved = false)
    (hng : ¬(strHasPre msg.uniqueId "UnvotedGovernanceProposal" = true ∧
      (sentEntry a dest msg.uniqueId).sentTime <
        now - govInterval * nanosPerHour)) :
    shouldNotify govInterval now msg dest a = (false, a) := by
  simp only [sentEntry] at hopen hng
  have hmem : msg.severity ∈ SeverityThresholdToSeverities
      (destThreshold msg dest) := by simpa using hsev
  have h0 : ¬(((SeverityThresholdToSeverities (destThreshold msg dest)).contains
      msg.severity) = false) := by simp [hmem]
  have h1 : ((mapFind (sentMap a dest) msg.uniqueId).getD
      AlertMsgCache.zero).sentTime ≠ 0 ∧ msg.resolved = false := ⟨hopen, hres⟩
  simp only [shouldNotify]
  rw [if_neg h0, if_pos h1, if_neg hng]

theorem shouldNotify_firing_open_resend (govInterval now : Int)
    (msg : AlertMsg) (dest : NotifyDest) (a : AlarmCache)
    (hsev : ((SeverityThresholdToSeverities (destThreshold msg dest)).contains
      msg.severity) = true)
    (hopen : (sentEntry a dest msg.uniqueId).sentTime ≠ 0)
    (hres : msg.resolved = false)
    (hg : strHasPre msg.uniqueId "UnvotedGovernanceProposal" = true ∧
      (sentEntry a dest msg.uniqueId).sentTime <
        now - govInterval * nanosPerHour) :
    shouldNotify govInterval now msg dest a =
      (true, setSentMap a dest
        (mapSet (sentMap a dest) msg.uniqueId ⟨msg.message, now⟩)) := by
  simp only [sentEntry] at hopen hg
  have hmem : msg.severity ∈ SeverityThresholdToSeverities
      (destThreshold msg dest) := by simpa using hsev
  have h0 : ¬(((SeverityThresholdToSeverities (destThreshold msg dest)).contains
      msg.severity) = false) := by simp [hmem]
  have h1 : ((mapFind (sentMap a dest) msg.uniqueId).getD
      AlertMsgCache.zero).sentTime ≠ 0 ∧ msg.resolved = false := ⟨hopen, hres⟩
  simp only [shouldNotify]
  rw [if_neg h0, if_pos h1, if_pos hg]

theorem shouldNotify_new_flapSuppress (govInterval now : Int) (msg : AlertMsg)
    (a : AlarmCache)
    (hsev : ((SeverityThresholdToSeverities
      (destThreshold msg NotifyDest.pd)).contains msg.severity) = true)
    (hclosed : (sentEntry a NotifyDest.pd msg.uniqueId).sentTime = 0)
    (hres : msg.resolved = false)
    (hpd : msg.pd = true)
    (hflap : (flapRecord a msg.chain msg.uniqueId).sentTime >
      now - 5 * nanosPerMinute) :
    (shouldNotify govInterval now msg NotifyDest.pd a).1 = false ∧
      ∀ d, sentMap (shouldNotify govInterval now msg NotifyDest.pd a).2 d =
        sentMap a d := by
  simp only [sentEntry] at hclosed
  simp only [flapRecord] at hflap
  have hmem : msg.severity ∈ SeverityThresholdToSeverities
      (destThreshold msg NotifyDest.pd) := by simpa using hsev
  have h0 : ¬(((SeverityThresholdToSeverities
      (destThreshold msg NotifyDest.pd)).contains msg.severity) = false) := by
    simp [hmem]
  have h1 : ¬(((mapFind (sentMap a NotifyDest.pd) msg.uniqueId).getD
      AlertMsgCache.zero).sentTime ≠ 0 ∧ msg.resolved = false) := by
    simp [hclosed]
  have h2 : ¬(((mapFind (sentMap a NotifyDest.pd) msg.uniqueId).getD
      AlertMsgCache.zero).sentTime ≠ 0 ∧ msg.resolved = true) := by
    simp [hclosed]
  have h3 : ¬(msg.resolved = true) := by simp [hres]
  have hcond : True ∧ msg.pd = true ∧
      ((mapFind ((mapFind a.flappingAlarms msg.chain).getD [])
        msg.uniqueId).getD AlertMsgCache.zero).sentTime >
        now - 5 * nanosPerMinute := ⟨trivial, hpd, hflap⟩
  simp only [shouldNotify]
  rw [if_neg h0, if_neg h1, if_neg h2, if_neg h3, if_pos hcond]
  refine ⟨rfl, fun d => ?_⟩
  by_cases hnil : (mapFind a.flappingAlarms msg.chain).isNone = true
  · rw [if_pos hnil, sentMap_set_flapping]
  · rw [if_neg hnil]

theorem shouldNotify_new_deliver (govInterval now : Int) (msg : AlertMsg)
    (dest : NotifyDest) (a : AlarmCache)
    (hsev : ((SeverityThresholdToSeverities (destThreshold msg dest)).contains
      msg.severity) = true)
    (hclosed : (sentEntry a dest msg.uniqueId).sentTime = 0)
    (hres : msg.resolved = false)
    (hnoflap : ¬(dest = NotifyDest.pd ∧ msg.pd = true ∧
      (flapRecord a msg.chain msg.uniqueId).sentTime >
        now - 5 * nanosPerMinute)) :
    (shouldNotify govInterval now msg dest a).1 = true ∧
      sentMap (shouldNotify govInterval now msg dest a).2 dest =
        mapSet (sentMap a dest) msg.uniqueId ⟨msg.message, now⟩ ∧
      (dest = NotifyDest.pd → msg.pd = true →
        mapFind ((mapFind
            (shouldNotify govInterval now msg dest a).2.flappingAlarms
            msg.chain).getD []) msg.uniqueId =
          some ⟨msg.message, now⟩) := by
  simp only [sentEntry] at hclosed
  simp only [flapRecord] at hnoflap
  have hmem : msg.severity ∈ SeverityThresholdToSeverities
      (destThreshold msg dest) := by simpa using hsev
  have h0 : ¬(((SeverityThresholdToSeverities (destThreshold msg dest)).contains
      msg.severity) = false) := by simp [hmem]
  have h1 : ¬(((mapFind (sentMap a dest) msg.uniqueId).getD
      AlertMsgCache.zero).sentTime ≠ 0 ∧ msg.resolved = false) := by
    simp [hclosed]
  have h2 : ¬(((mapFind (sentMap a dest) msg.uniqueId).getD
      AlertMsgCache.zero).sentTime ≠ 0 ∧ msg.resolved = true) := by
    simp [hclosed]
  have h3 : ¬(msg.resolved = true) := by simp [hres]
  simp only [shouldNotify]
  rw [if_neg h0, if_neg h1, if_neg h2, if_neg h3, if_neg hnoflap]
  refine ⟨rfl, ?_, ?_⟩
  · rw [sentMap_setSentMap_self]
    congr 1
    by_cases hc : dest = NotifyDest.pd ∧ msg.pd = true
    · rw [if_pos hc, sentMap_set_flapping]
      by_cases hnil : (mapFind a.flappingAlarms msg.chain).isNone = true
      · rw [if_pos hnil, sentMap_set_flapping]
      · rw [if_neg hnil]
    · rw [if_neg hc]
      by_cases hnil : (mapFind a.flappingAlarms msg.chain).isNone = true
      · rw [if_pos hnil, sentMap_set_flapping]
      · rw [if_neg hnil]
  · intro hdest hpd
    have hc : dest = NotifyDest.pd ∧ msg.pd = true := ⟨hdest, hpd⟩
    rw [flapping_setSentMap, if_pos hc]
    dsimp only
    rw [mapFind_mapSet_self, Option.getD_some, mapFind_mapSet_self]

/-! ## Characterizations of `Config.alert` on the canonical cache -/

theorem configAlert_nil (now : Int) (a : AlarmCache)
    (chainName message severity : String) (resolved : Bool) :
    configAlert now a chainName message severity resolved none = (none, a) :=
  rfl

theorem mapFind_all1 (all : List (String × SentMap)) (ch ch2 : String) :
    ((mapFind (if (mapFind all ch).isNone = true then mapSet all ch []
      else all) ch2).getD []) = ((mapFind all ch2).getD []) := by
  by_cases hnil : (mapFind all ch).isNone = true
  · rw [if_pos hnil]
    by_cases hch : ch2 = ch
    · subst hch
      rw [mapFind_mapSet_self]
      rw [Option.isNone_iff_eq_none] at hnil
      rw [hnil]
      rfl
    · rw [mapFind_mapSet_ne all [] hch]
  · rw [if_neg hnil]

theorem configAlert_fire_find (now : Int) (a : AlarmCache)
    (chainName message severity idv : String) :
    allFind (configAlert now a chainName message severity false
      (some idv)).2.allAlarms chainName idv = some ⟨message, now⟩ := by
  simp only [configAlert]
  rw [if_neg (by simp), if_neg (by simp)]
  dsimp only [allFind]
  rw [mapFind_mapSet_self, Option.getD_some, mapFind_mapSet_self]

theorem configAlert_fire_frame (now : Int) (a : AlarmCache)
    (chainName message severity idv : String) (ch2 aid2 : String)
    (h : ¬(ch2 = chainName ∧ aid2 = idv)) :
    allFind (configAlert now a chainName message severity false
      (some idv)).2.allAlarms ch2 aid2 = allFind a.allAlarms ch2 aid2 := by
  simp only [configAlert]
  rw [if_neg (by simp), if_neg (by simp)]
  dsimp only [allFind]
  by_cases hch : ch2 = chainName
  · subst hch
    have haid : aid2 ≠ idv := fun hx => h ⟨rfl, hx⟩
    rw [mapFind_mapSet_self, Option.getD_some, mapFind_mapSet_ne _ _ haid]
  · rw [mapFind_mapSet_ne _ _ hch, mapFind_all1]

theorem configAlert_resolve_present (now : Int) (a : AlarmCache)
    (chainName message severity idv : String)
    (hpres : ((allFind a.allAlarms chainName idv).getD
      AlertMsgCache.zero).sentTime ≠ 0) :
    allFind (configAlert now a chainName message severity true
      (some idv)).2.allAlarms chainName idv = none := by
  simp only [allFind] at hpres
  simp only [configAlert]
  rw [if_pos (⟨trivial, hpres⟩ : True ∧ _)]
  dsimp only [allFind]
  rw [mapFind_mapSet_self, Option.getD_some, mapFind_mapDel_self]

theorem configAlert_resolve_present_frame (now : Int) (a : AlarmCache)
    (chainName message severity idv : String) (ch2 aid2 : String)
    (hpres : ((allFind a.allAlarms chainName idv).getD
      AlertMsgCache.zero).sentTime ≠ 0)
    (h : ¬(ch2 = chainName ∧ aid2 = idv)) :
    allFind (configAlert now a chainName message severity true
      (some idv)).2.allAlarms ch2 aid2 = allFind a.allAlarms ch2 aid2 := by
  simp only [allFind] at hpres
  simp only [configAlert]
  rw [if_pos (⟨trivial, hpres⟩ : True ∧ _)]
  dsimp only [allFind]
  by_cases hch : ch2 = chainName
  · subst hch
    have haid : aid2 ≠ idv := fun hx => h ⟨rfl, hx⟩
    rw [mapFind_mapSet_self, Option.getD_some, mapFind_mapDel_ne _ haid]
  · rw [mapFind_mapSet_ne _ _ hch, mapFind_all1]

theorem configAlert_resolve_absent (now : Int) (a : AlarmCache)
    (chainName message severity idv : String) (ch2 aid2 : String)
    (habs : ((allFind a.allAlarms chainName idv).getD
      AlertMsgCache.zero).sentTime = 0) :
    allFind (configAlert now a chainName message severity true
      (some idv)).2.allAlarms ch2 aid2 = allFind a.allAlarms ch2 aid2 := by
  simp only [allFind] at habs
  simp only [configAlert]
  rw [if_neg (by simp [habs]), if_pos trivial]
  dsimp only [allFind]
  rw [mapFind_all1]

theorem configAlert_wf (now : Int) (a : AlarmCache)
    (chainName message severity : String) (resolved : Bool)
    (id : Option String)
    (hwf : ∀ ch, (mapKeys ((mapFind a.allAlarms ch).getD [])).Nodup) :
    ∀ ch, (mapKeys ((mapFind (configAlert now a chainName message severity
      resolved id).2.allAlarms ch).getD [])).Nodup := by
  intro ch
  match id with
  | none => exact hwf ch
  | some idv =>
    simp only [configAlert]
    by_cases h1 : resolved = true ∧
        ((mapFind ((mapFind a.allAlarms chainName).getD []) idv).getD
          AlertMsgCache.zero).sentTime ≠ 0
    · rw [if_pos h1]
      dsimp only
      by_cases hch : ch = chainName
      · subst hch
        rw [mapFind_mapSet_self, Option.getD_some]
        exact nodup_mapKeys_mapDel _ _ (hwf ch)
      · rw [mapFind_mapSet_ne _ _ hch, mapFind_all1]
        exact hwf ch
    · rw [if_neg h1]
      by_cases h2 : resolved = true
      · rw [if_pos h2]
        dsimp only
        rw [mapFind_all1]
        exact hwf ch
      · rw [if_neg h2]
        dsimp only
        by_cases hch : ch = chainName
        · subst hch
          rw [mapFind_mapSet_self, Option.getD_some]
          exact nodup_mapKeys_mapSet _ _ _ (hwf ch)
        · rw [mapFind_mapSet_ne _ _ hch, mapFind_all1]
          exact hwf ch

theorem applyAlerts_wf (now : Int) (calls : List AlertCall) (a : AlarmCache)
    (hwf : ∀ ch, (mapKeys ((mapFind a.allAlarms ch).getD [])).Nodup) :
    ∀ ch, (mapKeys ((mapFind (applyAlerts now calls a).allAlarms
      ch).getD [])).Nodup := by
  induction calls generalizing a with
  | nil => exact hwf
  | cons c rest ih =>
    exact ih _ (configAlert_wf now a c.chainName c.message c.severity
      c.resolved c.id hwf)

/-! ## Claim theorems -/

/-- C9: calling `Config.alert` with a nil `id` pointer is a complete
no-op: nothing is enqueued on the alert channel and the whole alarm
cache (per-sink maps, `AllAlarms`, flap records) is unchanged, for every
combination of the other arguments. -/
theorem c9_nil_id_noop (now : Int) (a : AlarmCache)
    (chainName message severity : String) (resolved : Bool) :
    configAlert now a chainName message severity resolved none = (none, a) :=
  configAlert_nil now a chainName message severity resolved

/-- C10: `SeverityThresholdToSeverities` applied to any string other
than (case-insensitive) "critical", "warning" or "info" — including the
empty string of an unset threshold — returns the full list
`["critical", "warning", "info"]`, so such a sink receives alerts of
every severity. -/
theorem c10_unknown_threshold_receives_all (s : String)
    (h1 : strToLower s ≠ "critical") (h2 : strToLower s ≠ "warning")
    (h3 : strToLower s ≠ "info") :
    SeverityThresholdToSeverities s = ["critical", "warning", "info"] := by
  simp [SeverityThresholdToSeverities, h1, h2, h3]

/-- Witness for C10 at the empty string. -/
theorem c10_witness :
    SeverityThresholdToSeverities "" = ["critical", "warning", "info"] :=
  c10_unknown_threshold_receives_all "" (by decide) (by decide) (by decide)

/-- C3: the three thresholds accept exactly the severity sets
`critical ↦ {critical}`, `warning ↦ {critical, warning}`,
`info ↦ {critical, warning, info}`, and `shouldNotify` rejects (and
leaves the cache untouched for) every message — resolutions included,
even when the corresponding firing alert was previously delivered —
whose severity is outside the sink's set. -/
theorem c3_severity_filter (govInterval now : Int) (msg : AlertMsg)
    (dest : NotifyDest) (a : AlarmCache) :
    SeverityThresholdToSeverities "critical" = ["critical"] ∧
    SeverityThresholdToSeverities "warning" = ["critical", "warning"] ∧
    SeverityThresholdToSeverities "info" = ["critical", "warning", "info"] ∧
    (msg.severity ∉ SeverityThresholdToSeverities (destThreshold msg dest) →
      shouldNotify govInterval now msg dest a = (false, a)) := by
  refine ⟨by decide, by decide, by decide, fun hnot => ?_⟩
  exact shouldNotify_sev_reject govInterval now msg dest a (by simpa using hnot)

/-- Witness for C3: an `info` resolution reaching a `critical` sink is
rejected although its firing alert is in the sink's sent cache. -/
theorem c3_witness :
    shouldNotify 6 100 c1Msg NotifyDest.pd c1Cache = (false, c1Cache) :=
  (c3_severity_filter 6 100 c1Msg NotifyDest.pd c1Cache).2.2.2 (by decide)

/-- C4 counterexample: `loadConfig` restores a persisted block tape
verbatim, so restoring a one-element tape over the freshly initialized
512-slot tape leaves a tape of length 1, not 512. -/
theorem c4_counterexample :
    (restoreChainBlocks (initChainBlocks none) (some [0])).length = 1 ∧
      (restoreChainBlocks (initChainBlocks none) (some [0])).length ≠ 512 := by
  constructor
  · rfl
  · decide

/-- C4 (amended): configuration validation initializes a nil tape to
exactly 512 slots holding the no-data value -1; loading persisted state
replaces the tape verbatim, so its length equals the persisted list's
length (512 exactly when the state was saved with a full tape, and
unchanged when no tape was persisted); every runtime update (modelled
from the spec) preserves the length. -/
theorem c4_tape_length :
    (initChainBlocks none).length = 512 ∧
    (initChainBlocks none).all (fun x => x == -1) = true ∧
    (∀ cur : List Int, restoreChainBlocks cur none = cur) ∧
    (∀ cur saved : List Int,
      (restoreChainBlocks cur (some saved)).length = saved.length) ∧
    (∀ (tape : List Int) (n : Nat) (o : Int),
      (tapeUpdate tape n o).length = tape.length) := by
  refine ⟨by simp only [initChainBlocks, List.length_replicate, showBLocks],
    ?_, fun cur => rfl, fun cur saved => rfl,
    fun tape n o => by simp [tapeUpdate]⟩
  simp only [initChainBlocks, List.all_eq_true]
  intro x hx
  rw [List.eq_of_mem_replicate hx]
  rfl

/-- C8 counterexample: the previous snapshot is bonded and the current
one is not, yet no alert fires because the monikers differ (the rule
additionally requires equal monikers). -/
theorem c8_counterexample :
    evaluateValidatorInactiveAlert "chain" "chain-1" "valoper1"
      (some ⟨"A", true, false⟩) ⟨"B", false, false⟩ =
      (none, false, false) := by
  decide

/-- C8 (amended): given a previous snapshot, the `ValidatorInactive`
rule fires (severity `critical`, alertId `ValidatorInactive_<valoper>`,
message noting tombstoned when the current snapshot is) exactly when the
previous snapshot was bonded, the current one is not, and the two
snapshots carry the same moniker; it resolves exactly when the previous
snapshot was not bonded, the current one is, and the monikers agree;
with no previous snapshot nothing is emitted. -/
theorem c8_validator_inactive (chainName chainId valAddress : String)
    (last valInfo : ValInfo) :
    ((last.bonded = true ∧ valInfo.bonded = false ∧
        last.moniker = valInfo.moniker) →
      evaluateValidatorInactiveAlert chainName chainId valAddress
          (some last) valInfo =
        (some ⟨chainName,
          mkInactiveMessage valInfo.moniker valAddress
            (if valInfo.tombstoned = true then "☠️ tombstoned 🪦"
              else "jailed") chainId,
          "critical", false, "ValidatorInactive_" ++ valAddress⟩,
          true, false)) ∧
    ((last.bonded = false ∧ valInfo.bonded = true ∧
        last.moniker = valInfo.moniker) →
      evaluateValidatorInactiveAlert chainName chainId valAddress
          (some last) valInfo =
        (some ⟨chainName,
          mkInactiveMessage valInfo.moniker valAddress "jailed" chainId,
          "critical", true, "ValidatorInactive_" ++ valAddress⟩,
          false, true)) ∧
    ((last.bonded = valInfo.bonded ∨ last.moniker ≠ valInfo.moniker) →
      evaluateValidatorInactiveAlert chainName chainId valAddress
          (some last) valInfo = (none, false, false)) ∧
    (∀ v : ValInfo, evaluateValidatorInactiveAlert chainName chainId
      valAddress none v = (none, false, false)) := by
  refine ⟨?_, ?_, ?_, fun v => rfl⟩
  · rintro ⟨hb, hvb, hm⟩
    simp [evaluateValidatorInactiveAlert, hb, hvb, hm]
  · rintro ⟨hb, hvb, hm⟩
    simp [evaluateValidatorInactiveAlert, hb, hvb, hm]
  · rintro (hb | hm)
    · simp [evaluateValidatorInactiveAlert, hb]
    · simp [evaluateValidatorInactiveAlert, hm]

/-- Witness for C8: a bonded-to-tombstoned transition with matching
monikers fires a critical alert whose message notes the tombstoning. -/
theorem c8_witness :
    evaluateValidatorInactiveAlert "c" "cid" "val"
      (some ⟨"M", true, false⟩) ⟨"M", false, true⟩ =
      (some ⟨"c", mkInactiveMessage "M" "val" "☠️ tombstoned 🪦" "cid",
        "critical", false, "ValidatorInactive_" ++ "val"⟩, true, false) := by
  have h := (c8_validator_inactive "c" "cid" "val" ⟨"M", true, false⟩
    ⟨"M", false, true⟩).1 ⟨rfl, rfl, rfl⟩
  simpa using h

theorem mapFind_map_values {α β : Type} (f : α → β)
    (m : List (String × α)) (k : String) :
    mapFind (m.map (fun p => (p.1, f p.2))) k = (mapFind m k).map f := by
  induction m with
  | nil => simp [mapFind]
  | cons p rest ih =>
    by_cases h : p.1 = k
    · simp [mapFind, h]
    · simp [mapFind, h, ih]

/-- C5: the restore step of `loadConfig` scrubs every per-sink map and
every per-chain map of the saved alarm cache with `clearStale` at the
24-hour cutoff: an entry strictly older than 24 hours is deleted, an
entry strictly newer than 24 hours is restored unchanged (same key,
same message, same sent time), and no entry appears out of nowhere. -/
theorem c5_restore_drops_exactly_stale (now : Int) (s : SavedAlarms)
    (a : AlarmCache) (m : SentMap) (k : String) (c : AlertMsgCache)
    (hnd : (mapKeys m).Nodup) :
    (mapFind m k = some c → now - c.sentTime > staleHours * nanosPerHour →
      mapFind (clearStale m now staleHours) k = none) ∧
    (mapFind m k = some c → now - c.sentTime < staleHours * nanosPerHour →
      mapFind (clearStale m now staleHours) k = some c) ∧
    (mapFind m k = none → mapFind (clearStale m now staleHours) k = none) ∧
    (s.sentTgAlarms = some m → (restoreAlarmState now (some s)
      a).sentTgAlarms = clearStale m now staleHours) ∧
    (s.sentPdAlarms = some m → (restoreAlarmState now (some s)
      a).sentPdAlarms = clearStale m now staleHours) ∧
    (s.sentDiAlarms = some m → (restoreAlarmState now (some s)
      a).sentDiAlarms = clearStale m now staleHours) ∧
    (s.sentSlkAlarms = some m → (restoreAlarmState now (some s)
      a).sentSlkAlarms = clearStale m now staleHours) ∧
    (∀ (all : List (String × SentMap)) (ch : String),
      s.allAlarms = some all →
      mapFind (restoreAlarmState now (some s) a).allAlarms ch =
        (mapFind all ch).map (fun mm => clearStale mm now staleHours)) := by
  refine ⟨fun h1 h2 => ?_, fun h1 h2 => ?_,
    fun h1 => mapFind_clearStale_none m now staleHours k h1,
    fun htg => ?_, fun hpd => ?_, fun hdi => ?_, fun hslk => ?_,
    fun all ch hall => ?_⟩
  · rw [mapFind_clearStale m now staleHours k hnd, h1]
    have hge : now - c.sentTime ≥ staleHours * nanosPerHour := le_of_lt h2
    simp [hge]
  · rw [mapFind_clearStale m now staleHours k hnd, h1]
    have hlt : ¬(now - c.sentTime ≥ staleHours * nanosPerHour) :=
      not_le.mpr h2
    simp [hlt]
  · cases hpd : s.sentPdAlarms <;> cases hdi : s.sentDiAlarms <;>
      cases hslk : s.sentSlkAlarms <;> cases hall : s.allAlarms <;>
      simp [restoreAlarmState, htg, hpd, hdi, hslk, hall]
  · cases htg : s.sentTgAlarms <;> cases hdi : s.sentDiAlarms <;>
      cases hslk : s.sentSlkAlarms <;> cases hall : s.allAlarms <;>
      simp [restoreAlarmState, htg, hpd, hdi, hslk, hall]
  · cases htg : s.sentTgAlarms <;> cases hpd : s.sentPdAlarms <;>
      cases hslk : s.sentSlkAlarms <;> cases hall : s.allAlarms <;>
      simp [restoreAlarmState, htg, hpd, hdi, hslk, hall]
  · cases htg : s.sentTgAlarms <;> cases hpd : s.sentPdAlarms <;>
      cases hdi : s.sentDiAlarms <;> cases hall : s.allAlarms <;>
      simp [restoreAlarmState, htg, hpd, hdi, hslk, hall]
  · cases htg : s.sentTgAlarms <;> cases hpd : s.sentPdAlarms <;>
      cases hdi : s.sentDiAlarms <;> cases hslk : s.sentSlkAlarms <;>
      simp only [restoreAlarmState, htg, hpd, hdi, hslk, hall] <;>
      exact mapFind_map_values (fun mm => clearStale mm now staleHours)
        all ch

/-- Witness for C5: a fresh entry (one nanosecond old) is restored
unchanged. -/
theorem c5_witness :
    mapFind (clearStale [("k", ⟨"m", 10⟩)] 11 staleHours) "k" =
      some ⟨"m", 10⟩ :=
  (c5_restore_drops_exactly_stale 11 c5Saved emptyCache
      [("k", ⟨"m", 10⟩)] "k" ⟨"m", 10⟩ (by decide)).2.1
    (by decide) (by decide)

/-- C1 counterexample: the firing alert `NodeDown_val_node` is recorded
as delivered to PagerDuty, yet the corresponding resolution is NOT
delivered (and the cache entry is kept), because its severity `info`
fails the sink's `critical` threshold — refuting the claimed
"resolve delivered iff prior fire delivered" and its "returns true and
removes the entry whenever an entry exists". -/
theorem c1_counterexample :
    c1Msg.resolved = true ∧
    (sentEntry c1Cache NotifyDest.pd c1Msg.uniqueId).sentTime ≠ 0 ∧
    (shouldNotify 6 100 c1Msg NotifyDest.pd c1Cache).1 = false ∧
    (shouldNotify 6 100 c1Msg NotifyDest.pd c1Cache).2 = c1Cache := by
  decide

/-- C1 (amended): provided the message's severity passes the sink's
severity threshold: a resolved message returns true and removes the
sink's cache entry when an entry for the uniqueId exists, and returns
false (the resolution is discarded) when no entry exists; a
non-resolved message whose uniqueId already has an entry returns false,
unless it is a governance-proposal reminder that is due. -/
theorem c1_resolve_iff_fired (govInterval now : Int) (msg : AlertMsg)
    (dest : NotifyDest) (a : AlarmCache)
    (hsev : ((SeverityThresholdToSeverities (destThreshold msg
      dest)).contains msg.severity) = true) :
    (msg.resolved = true → (sentEntry a dest msg.uniqueId).sentTime ≠ 0 →
      (shouldNotify govInterval now msg dest a).1 = true ∧
        mapFind (sentMap (shouldNotify govInterval now msg dest a).2 dest)
          msg.uniqueId = none) ∧
    (msg.resolved = true → (sentEntry a dest msg.uniqueId).sentTime = 0 →
      shouldNotify govInterval now msg dest a = (false, a)) ∧
    (msg.resolved = false → (sentEntry a dest msg.uniqueId).sentTime ≠ 0 →
      ¬(strHasPre msg.uniqueId "UnvotedGovernanceProposal" = true ∧
        (sentEntry a dest msg.uniqueId).sentTime <
          now - govInterval * nanosPerHour) →
      shouldNotify govInterval now msg dest a = (false, a)) := by
  refine ⟨fun hres hopen => ?_, fun hres hclosed => ?_,
    fun hres hopen hng => ?_⟩
  · rw [shouldNotify_resolved_open govInterval now msg dest a hsev hopen
      hres]
    exact ⟨rfl, by rw [sentMap_setSentMap_self, mapFind_mapDel_self]⟩
  · exact shouldNotify_resolved_notOpen govInterval now msg dest a hsev
      hclosed hres
  · exact shouldNotify_firing_open_noResend govInterval now msg dest a hsev
      hopen hres hng

/-- Witness for C1: a critical resolution of the recorded alert is
delivered and the entry is removed. -/
theorem c1_witness :
    (shouldNotify 6 100 c1wMsg NotifyDest.pd c1Cache).1 = true ∧
      mapFind (sentMap (shouldNotify 6 100 c1wMsg NotifyDest.pd
        c1Cache).2 NotifyDest.pd) c1wMsg.uniqueId = none :=
  (c1_resolve_iff_fired 6 100 c1wMsg NotifyDest.pd c1Cache (by decide)).1
    (by decide) (by decide)

/-- C2: over any sequence of `Config.alert` calls the canonical
`AllAlarms` cache holds at most one open entry per alertId, and a
single call behaves as claimed: a non-resolved alert inserts (or
overwrites) the single entry keyed by the alertId, touching no other
entry; a resolved alert deletes that entry when present (touching no
other entry) and otherwise changes no entry at all. -/
theorem c2_allAlarms_at_most_one_open (now : Int) (a : AlarmCache)
    (calls : List AlertCall)
    (hwf : ∀ ch, (mapKeys ((mapFind a.allAlarms ch).getD [])).Nodup) :
    (∀ ch aid, keyCount ((mapFind (applyAlerts now calls a).allAlarms
        ch).getD []) aid ≤ 1) ∧
    (∀ chainName message severity idv,
      allFind (configAlert now a chainName message severity false
        (some idv)).2.allAlarms chainName idv = some ⟨message, now⟩) ∧
    (∀ chainName message severity idv ch2 aid2,
      ¬(ch2 = chainName ∧ aid2 = idv) →
      allFind (configAlert now a chainName message severity false
        (some idv)).2.allAlarms ch2 aid2 = allFind a.allAlarms ch2 aid2) ∧
    (∀ chainName message severity idv,
      ((allFind a.allAlarms chainName idv).getD
        AlertMsgCache.zero).sentTime ≠ 0 →
      allFind (configAlert now a chainName message severity true
        (some idv)).2.allAlarms chainName idv = none) ∧
    (∀ chainName message severity idv ch2 aid2,
      ((allFind a.allAlarms chainName idv).getD
        AlertMsgCache.zero).sentTime ≠ 0 →
      ¬(ch2 = chainName ∧ aid2 = idv) →
      allFind (configAlert now a chainName message severity true
        (some idv)).2.allAlarms ch2 aid2 = allFind a.allAlarms ch2 aid2) ∧
    (∀ chainName message severity idv ch2 aid2,
      ((allFind a.allAlarms chainName idv).getD
        AlertMsgCache.zero).sentTime = 0 →
      allFind (configAlert now a chainName message severity true
        (some idv)).2.allAlarms ch2 aid2 = allFind a.allAlarms ch2 aid2) :=
  ⟨fun ch aid => keyCount_le_one_of_nodup _ aid
      (applyAlerts_wf now calls a hwf ch),
    fun c m sev i => configAlert_fire_find now a c m sev i,
    fun c m sev i c2 a2 h => configAlert_fire_frame now a c m sev i c2 a2 h,
    fun c m sev i hp => configAlert_resolve_present now a c m sev i hp,
    fun c m sev i c2 a2 hp h =>
      configAlert_resolve_present_frame now a c m sev i c2 a2 hp h,
    fun c m sev i c2 a2 hab =>
      configAlert_resolve_absent now a c m sev i c2 a2 hab⟩

/-- Witness for C2: after two identical fire calls the cache holds at
most one open `ConsecutiveBlocksMissed_v` entry. -/
theorem c2_witness :
    keyCount ((mapFind (applyAlerts 5 c2Calls emptyCache).allAlarms
      "ch").getD []) "ConsecutiveBlocksMissed_v" ≤ 1 :=
  (c2_allAlarms_at_most_one_open 5 emptyCache c2Calls
    (fun _ => List.nodup_nil)).1 "ch" "ConsecutiveBlocksMissed_v"

/-- C6 counterexample: with the reminder interval at 6 hours, an open
governance alert whose recorded send lies exactly 6 hours in the past
(at least 6 hours have elapsed) is NOT re-sent — the code requires
strictly more than the interval, refuting the claimed "at least". -/
theorem c6_counterexample :
    strHasPre c6Msg.uniqueId "UnvotedGovernanceProposal" = true ∧
    c6Msg.resolved = false ∧
    (sentEntry c6Cache NotifyDest.pd c6Msg.uniqueId).sentTime ≠ 0 ∧
    (6 * nanosPerHour + 10) -
      (sentEntry c6Cache NotifyDest.pd c6Msg.uniqueId).sentTime =
      6 * nanosPerHour ∧
    (shouldNotify 6 (6 * nanosPerHour + 10) c6Msg NotifyDest.pd
      c6Cache).1 = false := by
  decide

/-- C6 (amended): for an open, non-resolved governance alert (uniqueId
prefixed `UnvotedGovernanceProposal`) whose severity passes the sink,
`shouldNotify` returns true again exactly when STRICTLY more than
`GovernanceAlertsReminderInterval` hours have elapsed since the
recorded `SentTime`, in which case the `SentTime` is updated to the
current time; a non-positive or unset configured interval defaults to
6 hours; an already-firing alert without the governance marker is never
re-sent. -/
theorem c6_governance_reminder (govInterval now : Int) (msg : AlertMsg)
    (dest : NotifyDest) (a : AlarmCache)
    (hsev : ((SeverityThresholdToSeverities (destThreshold msg
      dest)).contains msg.severity) = true)
    (hopen : (sentEntry a dest msg.uniqueId).sentTime ≠ 0)
    (hres : msg.resolved = false) :
    (strHasPre msg.uniqueId "UnvotedGovernanceProposal" = true →
      ((shouldNotify govInterval now msg dest a).1 = true ↔
        (sentEntry a dest msg.uniqueId).sentTime <
          now - govInterval * nanosPerHour)) ∧
    (strHasPre msg.uniqueId "UnvotedGovernanceProposal" = true →
      (sentEntry a dest msg.uniqueId).sentTime <
        now - govInterval * nanosPerHour →
      mapFind (sentMap (shouldNotify govInterval now msg dest a).2 dest)
        msg.uniqueId = some ⟨msg.message, now⟩) ∧
    (strHasPre msg.uniqueId "UnvotedGovernanceProposal" = false →
      shouldNotify govInterval now msg dest a = (false, a)) ∧
    (∀ i : Int, i ≤ 0 → defaultGovReminderInterval i = 6) ∧
    (∀ i : Int, 0 < i → defaultGovReminderInterval i = i) := by
  refine ⟨fun hpre => ⟨fun htrue => ?_, fun hlt => ?_⟩,
    fun hpre hlt => ?_, fun hnpre => ?_, fun i hi => ?_, fun i hi => ?_⟩
  · by_contra hnlt
    rw [shouldNotify_firing_open_noResend govInterval now msg dest a hsev
      hopen hres (fun hand => hnlt hand.2)] at htrue
    exact Bool.false_ne_true htrue
  · rw [shouldNotify_firing_open_resend govInterval now msg dest a hsev
      hopen hres ⟨hpre, hlt⟩]
  · rw [shouldNotify_firing_open_resend govInterval now msg dest a hsev
      hopen hres ⟨hpre, hlt⟩, sentMap_setSentMap_self, mapFind_mapSet_self]
  · refine shouldNotify_firing_open_noResend govInterval now msg dest a
      hsev hopen hres (fun hand => ?_)
    rw [hnpre] at hand
    exact Bool.false_ne_true hand.1
  · simp [defaultGovReminderInterval, hi]
  · simp [defaultGovReminderInterval, not_le.mpr hi]

/-- Witness for C6: eleven nanoseconds past the 6-hour mark the
reminder is re-sent. -/
theorem c6_witness :
    (shouldNotify 6 (6 * nanosPerHour + 11) c6Msg NotifyDest.pd
      c6Cache).1 = true :=
  ((c6_governance_reminder 6 (6 * nanosPerHour + 11) c6Msg NotifyDest.pd
      c6Cache (by decide) (by decide) (by decide)).1 (by decide)).mpr
    (by decide)

/-- C7: for a PagerDuty-enabled, not-yet-open, non-resolved alert that
passes the severity threshold: when the flap record for the same chain
and uniqueId was made within the last 5 minutes (strictly), the
notification is suppressed and no sent map changes; when the previous
fire attempt lies strictly more than 5 minutes in the past, a new flap
timestamp is recorded and the alert is delivered. -/
theorem c7_pagerduty_flap (govInterval now : Int) (msg : AlertMsg)
    (a : AlarmCache)
    (hsev : ((SeverityThresholdToSeverities (destThreshold msg
      NotifyDest.pd)).contains msg.severity) = true)
    (hclosed : (sentEntry a NotifyDest.pd msg.uniqueId).sentTime = 0)
    (hres : msg.resolved = false)
    (hpd : msg.pd = true) :
    (now - (flapRecord a msg.chain msg.uniqueId).sentTime <
        5 * nanosPerMinute →
      (shouldNotify govInterval now msg NotifyDest.pd a).1 = false ∧
        ∀ d, sentMap (shouldNotify govInterval now msg NotifyDest.pd
          a).2 d = sentMap a d) ∧
    (now - (flapRecord a msg.chain msg.uniqueId).sentTime >
        5 * nanosPerMinute →
      (shouldNotify govInterval now msg NotifyDest.pd a).1 = true ∧
        sentMap (shouldNotify govInterval now msg NotifyDest.pd a).2
            NotifyDest.pd =
          mapSet (sentMap a NotifyDest.pd) msg.uniqueId
            ⟨msg.message, now⟩ ∧
        mapFind ((mapFind (shouldNotify govInterval now msg NotifyDest.pd
            a).2.flappingAlarms msg.chain).getD [])
          msg.uniqueId = some ⟨msg.message, now⟩) := by
  constructor
  · intro hlt
    have hflap : (flapRecord a msg.chain msg.uniqueId).sentTime >
        now - 5 * nanosPerMinute := by omega
    exact shouldNotify_new_flapSuppress govInterval now msg a hsev hclosed
      hres hpd hflap
  · intro hgt
    have hnoflap : ¬(NotifyDest.pd = NotifyDest.pd ∧ msg.pd = true ∧
        (flapRecord a msg.chain msg.uniqueId).sentTime >
          now - 5 * nanosPerMinute) := by
      rintro ⟨-, -, hf⟩
      omega
    have h := shouldNotify_new_deliver govInterval now msg NotifyDest.pd a
      hsev hclosed hres hnoflap
    exact ⟨h.1, h.2.1, h.2.2 rfl hpd⟩

/-- Witness for C7: a fresh fire one nanosecond after a flap record is
suppressed. -/
theorem c7_witness :
    (shouldNotify 6 101 c7Msg NotifyDest.pd c7Cache).1 = false :=
  ((c7_pagerduty_flap 6 101 c7Msg c7Cache (by decide) (by decide)
      (by decide) (by decide)).1 (by decide)).1

end Tenderduty
